import Mathlib

/-!
# Workout Completion & Personal-Record Engine — verification development

Shallow embedding of the completion engine of the gym-app backend:

* `src/packages/backend/src/services/workout.service.ts`
  (`WorkoutService.completeWorkout`, `addExerciseToWorkout`,
  `updateExerciseInWorkout`),
* `src/utils/calculators.ts` (`calculateVolume`, `isPersonalRecord`),
* `src/models/workout.model.ts` (WorkoutSchema),
* `src/models/record.model.ts` (RecordSchema, including its unique index on
  `(user, exercise, type)` and the `previous` snapshot field),
* `src/models/progress.model.ts` — the ProgressMetric schema, whose `type`
  enum admits only body metrics (weight, bodyFat, waist, chest, arms,
  thighs), so the `type: exercise` / `type: performance` documents the
  workout service creates fail mongoose validation.

Numbers are modelled exactly: weights and reps are `Int` (the source's JS
numbers, on the integral inputs the claims use), times are `Int`
milliseconds.  The MongoDB transaction is modelled by running the body on a
copy of the store and returning the updated store only on commit; every
store *write* (`Record.create`, `Progress.create`, `workout.save`) consumes
one slot of an injected failure schedule so that infrastructure failures at
any point of the transaction can be expressed, and `Progress.create`
additionally validates its documents against the ProgressMetric `type`
enum before the write.
-/

/-- Session status, from WorkoutSchema's `status` enum. -/
inductive WStatus
  | in_progress
  | completed
  | aborted
deriving DecidableEq, Repr

/-- Record type, from RecordSchema's `type` enum. -/
inductive RecType
  | weight
  | reps
  | volume
  | duration
deriving DecidableEq, Repr

/-- One set inside a workout exercise entry (WorkoutSetSchema's `sets`
items).  `rpe`, per-set `duration` and `notes` play no role in completion
and are omitted. -/
structure WSet where
  weight : Int
  reps : Int
  completed : Bool
  isPersonalRecord : Bool := false
deriving DecidableEq, Repr

/-- One exercise entry of a workout (`IWorkoutSet`): the subdocument `_id`
(matched by `updateExerciseInWorkout`), the referenced exercise `_id`, and
the list of sets. -/
structure WExercise where
  id : Nat
  exercise : Nat
  sets : List WSet
deriving DecidableEq, Repr

/-- The `metrics` subdocument written by `completeWorkout`. -/
structure WMetrics where
  totalVolume : Int
  totalReps : Int
  personalRecords : Nat
  caloriesBurned : Int
deriving DecidableEq, Repr

/-- A workout-session document (`IWorkout`).  `startTime`/`endTime` are
milliseconds since the epoch. -/
structure Workout where
  id : Nat
  user : Nat
  status : WStatus
  startTime : Int
  endTime : Option Int := none
  duration : Option Int := none
  exercises : List WExercise
  metrics : Option WMetrics := none
deriving DecidableEq, Repr

/-- A row of the Record collection (`IRecord`).  The schema declares a
`previous : {value, date}` snapshot; `completeWorkout` never sets it, so it
is `none` on every row the service creates. -/
structure RecordRow where
  user : Nat
  exercise : Nat
  type : RecType
  value : Int
  workout : Nat
  previous : Option Int := none
deriving DecidableEq, Repr

/-- The shape of the documents `completeWorkout` passes to
`Progress.create`.  Note that the model it is created against —
`../models/progress.model`, the body-metric ProgressMetric schema —
enum-restricts `type` to body metrics, so these documents (whose `type` is
`exercise` or `performance`) fail schema validation; see
`progressTypeEnum` and `createProgress`. -/
structure ProgressRow where
  user : Nat
  type : String
  metric : String
  value : Int
  unit : String
  workoutRef : Nat
  exerciseRef : Option Nat := none
  source : String := "workout"
deriving DecidableEq, Repr

/-- The backing store: the three collections the engine touches. -/
structure Store where
  workouts : List Workout
  records : List RecordRow
  progress : List ProgressRow
deriving DecidableEq, Repr

/-- Errors that can arise inside the transaction body of `completeWorkout`:
the two `AppError`s it throws itself, the duplicate-key error raised by the
unique `(user, exercise, type)` index of RecordSchema on `Record.create`,
the mongoose ValidationError raised by `Progress.create` when a document's
`type` is outside the ProgressMetric schema's enum, and an injected
infrastructure failure of a store write. -/
inductive TxnErr
  | workoutNotFound
  | alreadyCompleted
  | duplicateKey
  | progressValidation
  | infra
deriving DecidableEq, Repr

/-- What the caller of `completeWorkout` observes, mirroring the catch
block: `AppError`s are rethrown, anything else becomes
`AppError('Error completing workout', 400)`. -/
inductive AppErr
  | workoutNotFound
  | alreadyCompleted
  | errorCompleting
deriving DecidableEq, Repr

/-- Decidable equality of `Except` results, for evaluating the engine on
concrete inputs. -/
instance {ε α : Type} [DecidableEq ε] [DecidableEq α] : DecidableEq (Except ε α) := fun x y =>
  match x, y with
  | .ok a, .ok b =>
    if h : a = b then .isTrue (by rw [h]) else .isFalse (fun hc => h (Except.ok.inj hc))
  | .error a, .error b =>
    if h : a = b then .isTrue (by rw [h]) else .isFalse (fun hc => h (Except.error.inj hc))
  | .ok _, .error _ => .isFalse (fun hc => Except.noConfusion hc)
  | .error _, .ok _ => .isFalse (fun hc => Except.noConfusion hc)

/-- The catch block's error translation. -/
def toAppErr : TxnErr → AppErr
  | .workoutNotFound => .workoutNotFound
  | .alreadyCompleted => .alreadyCompleted
  | .duplicateKey => .errorCompleting
  | .progressValidation => .errorCompleting
  | .infra => .errorCompleting

/-- `Workout.findOne({ _id: id, user: userId })`. -/
def findWorkout (store : Store) (id userId : Nat) : Option Workout :=
  store.workouts.find? (fun w => w.id == id && w.user == userId)

/-- `calculateVolume` from calculators.ts: weight × reps. -/
def calculateVolume (weight reps : Int) : Int :=
  weight * reps

/-- `Record.findOne({user, exercise, type}).sort({value: -1})`, reduced to
the value it is compared against: the maximal `value` among matching rows,
`none` when no row matches. -/
def maxRecordValue (records : List RecordRow) (u e : Nat) (t : RecType) : Option Int :=
  ((records.filter (fun r => r.user == u && r.exercise == e && r.type == t)).map
    (fun r => r.value)).max?

/-- `isPersonalRecord` from calculators.ts.  For `reps == 1` the weight is
compared against the best stored `weight` record; otherwise the volume
weight × reps is compared against the best stored `volume` record; an
absent record always yields `true`, a tie yields `false`. -/
def isPersonalRecord (records : List RecordRow) (userId exerciseId : Nat)
    (weight reps : Int) : Bool :=
  if reps = 1 then
    match maxRecordValue records userId exerciseId .weight with
    | none => true
    | some v => decide (v < weight)
  else
    let volume := calculateVolume weight reps
    match maxRecordValue records userId exerciseId .volume with
    | none => true
    | some v => decide (v < volume)

/-- `Record.create([...], {session})` under RecordSchema's unique index on
`(user, exercise, type)`: inserting a row whose key already exists raises a
duplicate-key error. -/
def insertRecord (records : List RecordRow) (r : RecordRow) :
    Except TxnErr (List RecordRow) :=
  if records.any (fun q => q.user == r.user && q.exercise == r.exercise && q.type == r.type)
  then .error .duplicateKey
  else .ok (records ++ [r])

/-- `Math.round(totalVolume * 0.05)` on exact arithmetic: JS rounds half
toward +∞, so this is ⌊totalVolume·(5/100) + 1/2⌋, written over `Int`. -/
def caloriesEstimate (totalVolume : Int) : Int :=
  (totalVolume * 5 + 50).fdiv 100

/-- Transaction-local state: the two collections written row by row during
the loop, and the index of the next store write (consumed against the
injected failure schedule). -/
structure TxnSt where
  records : List RecordRow
  progress : List ProgressRow
  opIdx : Nat
deriving Repr

/-- One store write: fails when the schedule injects a failure at this
write's position, otherwise advances the write counter. -/
def checkFail (sched : Nat → Bool) (st : TxnSt) : Except TxnErr TxnSt :=
  if sched st.opIdx then .error .infra
  else .ok { st with opIdx := st.opIdx + 1 }

/-- The `type` enum of the repository's progress model: the ProgressMetric
schema in progress.model.ts restricts `type` to body metrics. -/
def progressTypeEnum : List String :=
  ["weight", "bodyFat", "waist", "chest", "arms", "thighs"]

/-- `Progress.create(rows, {session})` against the ProgressMetric schema:
mongoose validates every document before the insert round-trip, so a row
whose `type` is not in the schema's enum raises a ValidationError;
otherwise the write hits the store (and may fail per the schedule) and the
rows are appended. -/
def createProgress (sched : Nat → Bool) (st : TxnSt) (rows : List ProgressRow) :
    Except TxnErr TxnSt :=
  if rows.all (fun p => progressTypeEnum.contains p.type) then
    match checkFail sched st with
    | .error e => .error e
    | .ok st1 => .ok { st1 with progress := st1.progress ++ rows }
  else .error .progressValidation

/-- Accumulator of the inner per-set loop of `completeWorkout`. -/
structure SetAcc where
  st : TxnSt
  exerciseVolume : Int
  exerciseReps : Int
  personalRecords : Nat
deriving Repr

/-- Body of the per-set loop of `completeWorkout`: skip non-completed sets;
accumulate reps and volume; consult `isPersonalRecord` against the current
(transaction-local) Record rows; on a record, mark the set, bump the
counter and `Record.create` the new row. -/
def processSet (sched : Nat → Bool) (userId exId wid : Nat) (acc : SetAcc) (s : WSet) :
    Except TxnErr (SetAcc × WSet) :=
  if s.completed then
    let exerciseReps := acc.exerciseReps + s.reps
    let setVolume := calculateVolume s.weight s.reps
    let exerciseVolume := acc.exerciseVolume + setVolume
    if isPersonalRecord acc.st.records userId exId s.weight s.reps then
      match checkFail sched acc.st with
      | .error e => .error e
      | .ok st1 =>
        match insertRecord st1.records
            { user := userId, exercise := exId,
              type := if s.reps = 1 then .weight else .volume,
              value := if s.reps = 1 then s.weight else s.weight * s.reps,
              workout := wid } with
        | .error e => .error e
        | .ok recs =>
          .ok ({ st := { st1 with records := recs },
                 exerciseVolume := exerciseVolume,
                 exerciseReps := exerciseReps,
                 personalRecords := acc.personalRecords + 1 },
               { s with isPersonalRecord := true })
    else
      .ok ({ acc with exerciseVolume := exerciseVolume, exerciseReps := exerciseReps }, s)
  else
    .ok (acc, s)

/-- The per-set loop over one exercise's sets, returning the updated sets
(the source mutates `set.isPersonalRecord` in place). -/
def processSets (sched : Nat → Bool) (userId exId wid : Nat) :
    SetAcc → List WSet → Except TxnErr (SetAcc × List WSet)
  | acc, [] => .ok (acc, [])
  | acc, s :: rest =>
    match processSet sched userId exId wid acc s with
    | .error e => .error e
    | .ok (acc1, s1) =>
      match processSets sched userId exId wid acc1 rest with
      | .error e => .error e
      | .ok (acc2, rest1) => .ok (acc2, s1 :: rest1)

/-- Accumulator of the per-exercise loop of `completeWorkout`. -/
structure ExAcc where
  st : TxnSt
  totalVolume : Int
  totalReps : Int
  personalRecords : Nat
deriving Repr

/-- Body of the per-exercise loop: run the set loop with per-exercise
volume/reps starting at 0, then `Progress.create` the per-exercise volume
row (type `exercise` — which the ProgressMetric schema rejects) and add the
exercise totals into the session totals. -/
def processExercise (sched : Nat → Bool) (userId wid : Nat) (acc : ExAcc) (ex : WExercise) :
    Except TxnErr (ExAcc × WExercise) :=
  match processSets sched userId ex.exercise wid
      { st := acc.st, exerciseVolume := 0, exerciseReps := 0,
        personalRecords := acc.personalRecords } ex.sets with
  | .error e => .error e
  | .ok (sacc, sets1) =>
    match createProgress sched sacc.st
        [{ user := userId, type := "exercise",
           metric := toString ex.exercise ++ "_volume",
           value := sacc.exerciseVolume, unit := "kg",
           workoutRef := wid, exerciseRef := some ex.exercise,
           source := "workout" }] with
    | .error e => .error e
    | .ok st1 =>
      .ok ({ st := st1,
             totalVolume := acc.totalVolume + sacc.exerciseVolume,
             totalReps := acc.totalReps + sacc.exerciseReps,
             personalRecords := sacc.personalRecords },
           { ex with sets := sets1 })

/-- The per-exercise loop over the workout's exercises. -/
def processExercises (sched : Nat → Bool) (userId wid : Nat) :
    ExAcc → List WExercise → Except TxnErr (ExAcc × List WExercise)
  | acc, [] => .ok (acc, [])
  | acc, ex :: rest =>
    match processExercise sched userId wid acc ex with
    | .error e => .error e
    | .ok (acc1, ex1) =>
      match processExercises sched userId wid acc1 rest with
      | .error e => .error e
      | .ok (acc2, rest1) => .ok (acc2, ex1 :: rest1)

/-- `workout.save({session})`: replace the document in the collection. -/
def saveWorkout (workouts : List Workout) (w : Workout) : List Workout :=
  workouts.map (fun x => if x.id == w.id then w else x)

/-- The transaction body of `WorkoutService.completeWorkout` (everything
inside the try block): load, status guard, per-exercise processing, metrics
assignment, `workout.save`, and the two final performance progress rows.
Returns the completed workout and the post-commit store. -/
def completeWorkoutTxn (sched : Nat → Bool) (store : Store) (id userId : Nat) (now : Int) :
    Except TxnErr (Workout × Store) :=
  match findWorkout store id userId with
  | none => .error .workoutNotFound
  | some w =>
    if w.status = .completed then .error .alreadyCompleted
    else
      let endTime := now
      let duration := (endTime - w.startTime).fdiv 1000
      match processExercises sched userId w.id
          { st := { records := store.records, progress := store.progress, opIdx := 0 },
            totalVolume := 0, totalReps := 0, personalRecords := 0 } w.exercises with
      | .error e => .error e
      | .ok (acc, exercises1) =>
        let w1 : Workout :=
          { w with status := .completed, endTime := some endTime,
                   duration := some duration, exercises := exercises1,
                   metrics := some
                     { totalVolume := acc.totalVolume, totalReps := acc.totalReps,
                       personalRecords := acc.personalRecords,
                       caloriesBurned := caloriesEstimate acc.totalVolume } }
        match checkFail sched acc.st with
        | .error e => .error e
        | .ok st1 =>
          match createProgress sched st1
              [{ user := userId, type := "performance",
                 metric := "workout_duration", value := duration,
                 unit := "seconds", workoutRef := w.id },
               { user := userId, type := "performance",
                 metric := "workout_volume", value := acc.totalVolume,
                 unit := "kg", workoutRef := w.id }] with
          | .error e => .error e
          | .ok st2 =>
            .ok (w1,
              { workouts := saveWorkout store.workouts w1,
                records := st2.records,
                progress := st2.progress })

/-- `WorkoutService.completeWorkout`: run the transaction body; on success
commit (the store becomes the body's store), on any failure abort (the
store is exactly the pre-call store) and surface the translated error. -/
def completeWorkout (sched : Nat → Bool) (store : Store) (id userId : Nat) (now : Int) :
    Except AppErr Workout × Store :=
  match completeWorkoutTxn sched store id userId now with
  | .ok (w, st) => (.ok w, st)
  | .error e => (.error (toAppErr e), store)

/-- Errors of the non-transactional workout operations. -/
inductive OpErr
  | workoutNotFound
  | cannotAddExercise
  | exerciseNotFound
deriving DecidableEq, Repr

/-- `WorkoutService.addExerciseToWorkout`: load, reject when the session is
not `in_progress` (`Cannot add exercises to a completed workout`), push the
exercise and save. -/
def addExerciseToWorkout (store : Store) (id userId : Nat) (ex : WExercise) :
    Except OpErr (Workout × Store) :=
  match findWorkout store id userId with
  | none => .error .workoutNotFound
  | some w =>
    if w.status ≠ .in_progress then .error .cannotAddExercise
    else
      let w1 := { w with exercises := w.exercises ++ [ex] }
      .ok (w1, { store with workouts := saveWorkout store.workouts w1 })

/-- The update payload of `updateExerciseInWorkout` (`Partial<IWorkoutSet>`
restricted to the `sets` field, the only one the claims concern). -/
structure ExerciseUpdate where
  sets : Option (List WSet) := none
deriving DecidableEq, Repr

/-- `Object.assign(workout.exercises[i], updateData)` for the modelled
fields. -/
def applyExerciseUpdate (ex : WExercise) (u : ExerciseUpdate) : WExercise :=
  { ex with sets := u.sets.getD ex.sets }

/-- `findIndex` + `Object.assign` on the exercises array: update the first
entry whose subdocument `_id` matches, `none` when no entry matches. -/
def updateExerciseInList : List WExercise → Nat → ExerciseUpdate → Option (List WExercise)
  | [], _, _ => none
  | ex :: rest, exerciseId, u =>
    if ex.id == exerciseId then some (applyExerciseUpdate ex u :: rest)
    else (updateExerciseInList rest exerciseId u).map (fun r => ex :: r)

/-- `WorkoutService.updateExerciseInWorkout`: load, locate the exercise by
subdocument `_id`, `Object.assign` the update and save.  The source checks
the session's `status` nowhere on this path. -/
def updateExerciseInWorkout (store : Store) (id userId exerciseId : Nat)
    (u : ExerciseUpdate) : Except OpErr (Workout × Store) :=
  match findWorkout store id userId with
  | none => .error .workoutNotFound
  | some w =>
    match updateExerciseInList w.exercises exerciseId u with
    | none => .error .exerciseNotFound
    | some exs1 =>
      let w1 := { w with exercises := exs1 }
      .ok (w1, { store with workouts := saveWorkout store.workouts w1 })

/-- A stored `Option` baseline read as a value in `WithBot ℤ`: an absent
record is −∞. -/
def obase : Option Int → WithBot Int
  | none => ⊥
  | some v => (v : WithBot Int)

/-- The trivial failure schedule: no injected store failures. -/
def noFail : Nat → Bool := fun _ => false

/-- A one-exercise, one-set, in-progress session (workout 1 of user 1,
exercise 2, subdocument 10, started at t = 0) whose single set is completed
with the given weight and reps. -/
def oneSetWorkout (weight reps : Int) : Workout :=
  { id := 1, user := 1, status := .in_progress, startTime := 0,
    exercises := [{ id := 10, exercise := 2,
                    sets := [{ weight := weight, reps := reps, completed := true }] }] }

/-- A store holding just `oneSetWorkout` and the given Record rows. -/
def oneSetStore (recs : List RecordRow) (weight reps : Int) : Store :=
  { workouts := [oneSetWorkout weight reps], records := recs, progress := [] }

/-- The volume Record row `completeWorkout` stages inside the transaction
for the set of `oneSetWorkout` when it is judged a new record. -/
def oneSetVolumeRecord (weight reps : Int) : RecordRow :=
  { user := 1, exercise := 2, type := .volume, value := weight * reps, workout := 1 }

/-- The worked example of the spec: one exercise, three completed sets
80×10, 85×8, 90×6. -/
def workedExampleSets : List WSet :=
  [{ weight := 80, reps := 10, completed := true },
   { weight := 85, reps := 8, completed := true },
   { weight := 90, reps := 6, completed := true }]

/-- The worked-example session. -/
def workedExampleWorkout : Workout :=
  { id := 1, user := 1, status := .in_progress, startTime := 0,
    exercises := [{ id := 10, exercise := 2, sets := workedExampleSets }] }

/-- The worked-example store (no pre-existing records). -/
def workedExampleStore : Store :=
  { workouts := [workedExampleWorkout], records := [], progress := [] }

/-- A stored current weight record of 100 for (user 1, exercise 2) — the
baseline of the supersession and in-session-baseline scenarios. -/
def baselineWeightRecord : RecordRow :=
  { user := 1, exercise := 2, type := .weight, value := 100, workout := 9 }

/-- Supersession scenario: baseline weight record 100 exists and the
session holds one completed set 110×1. -/
def supersededRecordStore : Store :=
  { workouts := [oneSetWorkout 110 1],
    records := [baselineWeightRecord], progress := [] }

/-- In-session-baseline scenario of the spec: baseline 100, two completed
sets 110×1 then 120×1 for the same exercise. -/
def inSessionBaselineStore : Store :=
  { workouts := [{ id := 1, user := 1, status := .in_progress, startTime := 0,
                   exercises := [{ id := 10, exercise := 2,
                                   sets := [{ weight := 110, reps := 1, completed := true },
                                            { weight := 120, reps := 1, completed := true }] }] }],
    records := [baselineWeightRecord], progress := [] }

/-- A session in the terminal `aborted` status (one completed 50×5 set). -/
def abortedSessionWorkout : Workout :=
  { id := 1, user := 1, status := .aborted, startTime := 0,
    exercises := [{ id := 10, exercise := 2,
                    sets := [{ weight := 50, reps := 5, completed := true }] }] }

/-- A store whose only session is aborted. -/
def abortedSessionStore : Store :=
  { workouts := [abortedSessionWorkout], records := [], progress := [] }

/-- A session that has already been completed. -/
def completedSessionWorkout : Workout :=
  { id := 1, user := 1, status := .completed, startTime := 0,
    exercises := [{ id := 10, exercise := 2,
                    sets := [{ weight := 50, reps := 5, completed := true }] }],
    metrics := some { totalVolume := 250, totalReps := 5,
                      personalRecords := 0, caloriesBurned := 13 } }

/-- A store whose only session is already completed. -/
def completedSessionStore : Store :=
  { workouts := [completedSessionWorkout], records := [], progress := [] }

/-- `completedSessionWorkout` with its sets rewritten — what
`updateExerciseInWorkout` turns the terminal session into. -/
def mutatedCompletedWorkout : Workout :=
  { completedSessionWorkout with
    exercises := [{ id := 10, exercise := 2,
                    sets := [{ weight := 999, reps := 9, completed := true }] }] }

/-- A schedule that would fail the third store write (`workout.save` on a
one-record session).  Under the progress model's enum rejection the
transaction already aborts one step earlier, at the per-exercise
`Progress.create` — in either case after the `Record.create` was issued
and before the session update. -/
def saveFailSchedule : Nat → Bool := fun n => n == 2

/-- Store for the atomicity witness: one completed 50×1 set, no records. -/
def saveFailStore : Store :=
  { workouts := [oneSetWorkout 50 1], records := [], progress := [] }

/-! Helper lemmas: the documents `completeWorkout` passes to
`Progress.create` carry `type` values outside the ProgressMetric enum, so
every such create fails validation, and consequently no transaction body
ever commits. -/

theorem createProgress_exercise_fails (sched : Nat → Bool) (st : TxnSt) (r : ProgressRow)
    (h : r.type = "exercise") :
    createProgress sched st [r] = .error .progressValidation := by
  simp [createProgress, progressTypeEnum, h]

theorem createProgress_performance_fails (sched : Nat → Bool) (st : TxnSt)
    (r1 r2 : ProgressRow) (h1 : r1.type = "performance") (h2 : r2.type = "performance") :
    createProgress sched st [r1, r2] = .error .progressValidation := by
  simp [createProgress, progressTypeEnum, h1, h2]

theorem processExercise_never_ok (sched : Nat → Bool) (userId wid : Nat)
    (acc : ExAcc) (ex : WExercise) :
    (processExercise sched userId wid acc ex).isOk = false := by
  unfold processExercise
  cases hp : processSets sched userId ex.exercise wid
      { st := acc.st, exerciseVolume := 0, exerciseReps := 0,
        personalRecords := acc.personalRecords } ex.sets with
  | error e => rfl
  | ok p =>
    obtain ⟨sacc, sets1⟩ := p
    dsimp only []
    rw [createProgress_exercise_fails sched sacc.st _ rfl]
    rfl

theorem completeWorkoutTxn_never_ok (sched : Nat → Bool) (store : Store)
    (id userId : Nat) (now : Int) :
    (completeWorkoutTxn sched store id userId now).isOk = false := by
  unfold completeWorkoutTxn
  cases hf : findWorkout store id userId with
  | none => rfl
  | some w =>
    dsimp only []
    by_cases hs : w.status = .completed
    · rw [if_pos hs]; rfl
    · rw [if_neg hs]
      cases hp : processExercises sched userId w.id
          { st := { records := store.records, progress := store.progress, opIdx := 0 },
            totalVolume := 0, totalReps := 0, personalRecords := 0 } w.exercises with
      | error e => rfl
      | ok p =>
        obtain ⟨acc, exs1⟩ := p
        dsimp only []
        cases h2 : checkFail sched acc.st with
        | error e => rfl
        | ok st1 =>
          dsimp only []
          rw [createProgress_performance_fails sched st1 _ _ rfl rfl]
          rfl

/-- C1: any failure inside `completeWorkout` is atomic — whenever the call
returns an error, under any injected failure schedule, the resulting store
is exactly the pre-call store: the session document is unchanged and no
Record or ProgressEntry row persists. -/
theorem completeWorkout_failure_is_atomic (sched : Nat → Bool) (store : Store)
    (id userId : Nat) (now : Int) (e : AppErr)
    (h : (completeWorkout sched store id userId now).1 = .error e) :
    (completeWorkout sched store id userId now).2 = store := by
  unfold completeWorkout at h ⊢
  cases htxn : completeWorkoutTxn sched store id userId now with
  | ok p => rw [htxn] at h; obtain ⟨w1, st1⟩ := p; simp at h
  | error e1 => rfl

/-- Witness for C1: on a one-record session the transaction fails after
the `Record.create` was issued and before the session update (the
per-exercise `Progress.create` is rejected by the progress schema; the
schedule would equally fail the subsequent `workout.save`), the call
errors, and the store is untouched. -/
theorem completeWorkout_failure_is_atomic_witness :
    ((completeWorkout saveFailSchedule saveFailStore 1 1 600000).1 =
       .error .errorCompleting) ∧
    (completeWorkout saveFailSchedule saveFailStore 1 1 600000).2 = saveFailStore :=
  ⟨by decide,
   completeWorkout_failure_is_atomic saveFailSchedule saveFailStore 1 1 600000
     .errorCompleting (by decide)⟩

/-- C2: a `completeWorkout` call on a session whose status is already
`completed` returns AlreadyCompleted and performs zero writes — the
returned store is exactly the pre-call store, so the session document and
the Record and ProgressEntry row counts are unchanged. -/
theorem completeWorkout_alreadyCompleted_zero_writes (sched : Nat → Bool) (store : Store)
    (id userId : Nat) (now : Int) (w0 : Workout)
    (hfind : findWorkout store id userId = some w0)
    (hstatus : w0.status = .completed) :
    completeWorkout sched store id userId now = (.error .alreadyCompleted, store) := by
  unfold completeWorkout completeWorkoutTxn
  rw [hfind]
  dsimp only []
  rw [if_pos hstatus]
  rfl

/-- Witness for C2: a second completion of an already-completed session. -/
theorem completeWorkout_alreadyCompleted_zero_writes_witness :
    (findWorkout completedSessionStore 1 1 = some completedSessionWorkout ∧
     completedSessionWorkout.status = .completed) ∧
    completeWorkout noFail completedSessionStore 1 1 600000 =
      (.error .alreadyCompleted, completedSessionStore) :=
  ⟨⟨by decide, by decide⟩,
   completeWorkout_alreadyCompleted_zero_writes noFail completedSessionStore 1 1 600000
     completedSessionWorkout (by decide) (by decide)⟩

/-- C3 (code bug): with a current weight Record of 100 for
(user 1, exercise 2) and a session holding one completed 110×1 set — an
input on which the claim expects a superseding Record whose `previous`
snapshot is the old value — `completeWorkout` instead fails entirely:
`Record.create` violates the unique `(user, exercise, type)` index, the
duplicate-key error (raised before any progress write) aborts the
transaction, surfacing as the generic `Error completing workout`, and no
Record is superseded or written. -/
theorem completeWorkout_supersession_fails_duplicate_key :
    completeWorkout noFail supersededRecordStore 1 1 600000 =
      (.error .errorCompleting, supersededRecordStore) := by decide

/-- C4 (code bug): on the spec's in-session-baseline scenario — stored
weight baseline 100, session sets 110×1 then 120×1 — `completeWorkout`
does not succeed with one final Record of 120: the very first record
insert collides with the existing (user, exercise, weight) row, the
transaction aborts, and the session stays in_progress. -/
theorem completeWorkout_in_session_baseline_fails :
    completeWorkout noFail inSessionBaselineStore 1 1 600000 =
      (.error .errorCompleting, inSessionBaselineStore) := by decide

/-- C5: for any stored records and candidate set with reps = 1 or
reps > 1, `isPersonalRecord` reports a new record iff the candidate value
(weight for reps = 1, weight×reps for reps > 1) strictly exceeds the
stored baseline, where an absent baseline counts as −∞ (so a tie is never
a record). -/
theorem isPersonalRecord_strictly_exceeds_baseline (records : List RecordRow)
    (u e : Nat) (weight reps : Int) (h : reps = 1 ∨ 1 < reps) :
    (isPersonalRecord records u e weight reps = true ↔
      (if reps = 1 then
        obase (maxRecordValue records u e .weight) < (weight : WithBot Int)
      else
        obase (maxRecordValue records u e .volume) < ((weight * reps : Int) : WithBot Int))) := by
  by_cases h1 : reps = 1
  · simp only [isPersonalRecord, h1, if_true]
    cases hm : maxRecordValue records u e .weight with
    | none => simp [obase]
    | some v => simp [obase, WithBot.coe_lt_coe]
  · simp only [isPersonalRecord, calculateVolume, h1, if_false]
    cases hm : maxRecordValue records u e .volume with
    | none => simp only [obase]; simp [← WithBot.coe_mul, WithBot.bot_lt_coe]
    | some v => simp only [obase]; simp [← WithBot.coe_mul, WithBot.coe_lt_coe]

/-- Witness for C5: against a stored weight record of 100, a 101×1 set is
judged by the strict-excess rule. -/
theorem isPersonalRecord_strictly_exceeds_baseline_witness :
    ((1 : Int) = 1 ∨ (1 : Int) < 1) ∧
    (isPersonalRecord [baselineWeightRecord] 1 2 101 1 = true ↔
      (if (1 : Int) = 1 then
        obase (maxRecordValue [baselineWeightRecord] 1 2 .weight) < ((101 : Int) : WithBot Int)
      else
        obase (maxRecordValue [baselineWeightRecord] 1 2 .volume) <
          ((101 * 1 : Int) : WithBot Int))) :=
  ⟨Or.inl rfl,
   isPersonalRecord_strictly_exceeds_baseline [baselineWeightRecord] 1 2 101 1 (Or.inl rfl)⟩

/-- C6 (code bug): the spec's worked example — one exercise with completed
sets 80×10, 85×8, 90×6, claimed to complete with totalVolume 2020 and
totalReps 24 — never completes: the per-exercise `Progress.create` writes
a `type: exercise` document that the repository's progress model (the
ProgressMetric schema) enum-rejects, so the transaction aborts with the
generic error and nothing persists.  No session is ever successfully
completed by this engine, so no completed session exists to carry the
claimed aggregates. -/
theorem completeWorkout_workedExample_aborts :
    completeWorkout noFail workedExampleStore 1 1 600000 =
      (.error .errorCompleting, workedExampleStore) := by decide

/-- C7 counterexample: `updateExerciseInWorkout` rewrites the sets of a
session already in the terminal `completed` status — it performs no status
check — so the claimed "once terminal, sets and metrics are never mutated"
fails over the claim's own listed operations. -/
theorem updateExercise_mutates_completed_session_cex :
    completedSessionWorkout.status = .completed ∧
    updateExerciseInWorkout completedSessionStore 1 1 10
        { sets := some [{ weight := 999, reps := 9, completed := true }] } =
      .ok (mutatedCompletedWorkout,
           { completedSessionStore with workouts := [mutatedCompletedWorkout] }) := by
  decide

/-- C7 amended: `completeWorkout` rejects sessions already completed with
AlreadyCompleted, and otherwise never commits at all — every invocation
errors (the progress-model enum rejection aborts each transaction), so no
status transition ever happens through it, in particular an aborted
session stays aborted.  `addExerciseToWorkout` refuses any session not
in_progress, but terminal-state immutability still fails:
`updateExerciseInWorkout` applies set updates to a found session in any
status, completed included. -/
theorem workout_status_transitions_amended :
    (∀ (sched : Nat → Bool) (store : Store) (id userId : Nat) (now : Int) (w0 : Workout),
       findWorkout store id userId = some w0 → w0.status = .completed →
       (completeWorkout sched store id userId now).1 = .error .alreadyCompleted) ∧
    (∀ (sched : Nat → Bool) (store : Store) (id userId : Nat) (now : Int),
       (completeWorkout sched store id userId now).1.isOk = false) ∧
    (∀ (store : Store) (id userId : Nat) (ex : WExercise) (w0 : Workout),
       findWorkout store id userId = some w0 → w0.status ≠ .in_progress →
       addExerciseToWorkout store id userId ex = .error .cannotAddExercise) ∧
    (∀ (store : Store) (id userId exerciseId : Nat) (u : ExerciseUpdate)
       (w0 : Workout) (exs1 : List WExercise),
       findWorkout store id userId = some w0 →
       updateExerciseInList w0.exercises exerciseId u = some exs1 →
       updateExerciseInWorkout store id userId exerciseId u =
         .ok ({ w0 with exercises := exs1 },
              { store with workouts := saveWorkout store.workouts { w0 with exercises := exs1 } })) := by
  refine ⟨?_, ?_, ?_, ?_⟩
  · intro sched store id userId now w0 hfind hstatus
    unfold completeWorkout completeWorkoutTxn
    rw [hfind]
    dsimp only []
    rw [if_pos hstatus]
    rfl
  · intro sched store id userId now
    unfold completeWorkout
    cases htxn : completeWorkoutTxn sched store id userId now with
    | ok p =>
      have hno := completeWorkoutTxn_never_ok sched store id userId now
      rw [htxn] at hno
      simp [Except.isOk, Except.toBool] at hno
    | error e => rfl
  · intro store id userId ex w0 hfind hstatus
    unfold addExerciseToWorkout
    rw [hfind]
    dsimp only []
    rw [if_pos hstatus]
  · intro store id userId exerciseId u w0 exs1 hfind hupd
    unfold updateExerciseInWorkout
    rw [hfind]
    dsimp only []
    rw [hupd]

/-- Witness for C7 amended: `addExerciseToWorkout` refuses the aborted
session. -/
theorem workout_status_transitions_amended_witness :
    (findWorkout abortedSessionStore 1 1 = some abortedSessionWorkout ∧
     abortedSessionWorkout.status ≠ .in_progress) ∧
    addExerciseToWorkout abortedSessionStore 1 1 { id := 11, exercise := 3, sets := [] } =
      .error .cannotAddExercise :=
  ⟨⟨by decide, by decide⟩,
   workout_status_transitions_amended.2.2.1 abortedSessionStore 1 1
     { id := 11, exercise := 3, sets := [] } abortedSessionWorkout (by decide) (by decide)⟩

/-- C8 counterexample: on a session whose single completed set has weight
−5 and reps 0 — malformed data on which the claim expects a ValidationError
raised before any transaction and without a store round-trip — the set is
instead fed straight into the personal-record computation (it is even
classified as a new record), and the call fails only inside the
transaction, with the same generic `Error completing workout` every
completion produces (the progress-schema rejection), after the store was
read and written to. -/
theorem completeWorkout_malformed_generic_error_cex :
    isPersonalRecord [] 1 2 (-5) 0 = true ∧
    completeWorkout noFail (oneSetStore [] (-5) 0) 1 1 600000 =
      (.error .errorCompleting, oneSetStore [] (-5) 0) := by decide

/-- C8 amended: `completeWorkout` performs no validation of set data at
all — for every weight and reps, however malformed (negative weight, zero
or negative reps), the single completed set is processed by the
personal-record pipeline (against an empty record store it is always
classified a new record), and the call then fails inside the transaction
with the generic error — identically to a well-formed session, never with
a pre-transaction ValidationError — leaving the store unchanged. -/
theorem completeWorkout_no_set_validation (weight reps : Int) :
    isPersonalRecord [] 1 2 weight reps = true ∧
    completeWorkout noFail (oneSetStore [] weight reps) 1 1 600000 =
      (.error .errorCompleting, oneSetStore [] weight reps) := by
  have hce : "exercise" ∉ progressTypeEnum := by decide
  have hcp : "performance" ∉ progressTypeEnum := by decide
  constructor
  · by_cases hreps : reps = 1 <;> simp [isPersonalRecord, maxRecordValue, hreps]
  · by_cases hreps : reps = 1
    · subst hreps
      simp [completeWorkout, completeWorkoutTxn, findWorkout, oneSetStore, oneSetWorkout,
        processExercises, processExercise, processSets, processSet, isPersonalRecord,
        maxRecordValue, calculateVolume, checkFail, noFail, insertRecord, createProgress,
        toAppErr, hce, hcp]
    · simp [completeWorkout, completeWorkoutTxn, findWorkout, oneSetStore, oneSetWorkout,
        processExercises, processExercise, processSets, processSet, isPersonalRecord,
        maxRecordValue, calculateVolume, checkFail, noFail, insertRecord, createProgress,
        toAppErr, hce, hcp, hreps]

/-- C10 counterexample: a completed 80×0 set with no stored volume Record
is classified as a new personal record, but — contrary to the claimed
persistence — `completeWorkout` errors (the progress-schema rejection
aborts the transaction) and the store is unchanged: the zero-valued
volume Record never persists. -/
theorem completeWorkout_zero_record_not_persisted_cex :
    isPersonalRecord [] 1 2 80 0 = true ∧
    completeWorkout noFail (oneSetStore [] 80 0) 1 1 600000 =
      (.error .errorCompleting, oneSetStore [] 80 0) := by decide

/-- C10 amended: for every completed set with reps ≠ 1 (reps 0 included)
against records holding no volume Record for the key, the engine does
classify the set as a new personal record inside the transaction — the
per-set step flags the set and stages a volume Record with value
weight×reps, zero or negative included — but nothing persists: the
completion invariably aborts at the per-exercise `Progress.create`
(progress-schema enum rejection), returning the generic error with the
store unchanged. -/
theorem completeWorkout_absent_volume_baseline (weight reps : Int) (recs : List RecordRow)
    (hreps : reps ≠ 1)
    (hno : ∀ r ∈ recs, ¬(r.user = 1 ∧ r.exercise = 2 ∧ r.type = RecType.volume)) :
    processSet noFail 1 2 1
        { st := { records := recs, progress := [], opIdx := 0 },
          exerciseVolume := 0, exerciseReps := 0, personalRecords := 0 }
        { weight := weight, reps := reps, completed := true } =
      .ok ({ st := { records := recs ++ [oneSetVolumeRecord weight reps],
                     progress := [], opIdx := 1 },
             exerciseVolume := weight * reps, exerciseReps := reps, personalRecords := 1 },
           { weight := weight, reps := reps, completed := true, isPersonalRecord := true }) ∧
    completeWorkout noFail (oneSetStore recs weight reps) 1 1 600000 =
      (.error .errorCompleting, oneSetStore recs weight reps) := by
  have hfilter : recs.filter
      (fun r => r.user == 1 && r.exercise == 2 && r.type == RecType.volume) = [] := by
    rw [List.filter_eq_nil_iff]
    intro r hr
    have hn := hno r hr
    simp only [Bool.and_eq_true, beq_iff_eq]
    tauto
  have hmax : maxRecordValue recs 1 2 .volume = none := by
    rw [maxRecordValue, hfilter]
    rfl
  have hany : recs.any
      (fun q => q.user == 1 && q.exercise == 2 && q.type == RecType.volume) = false := by
    rw [List.any_eq_false]
    intro r hr
    have hn := hno r hr
    simp only [Bool.and_eq_true, beq_iff_eq]
    tauto
  have hce : "exercise" ∉ progressTypeEnum := by decide
  constructor
  · simp [processSet, isPersonalRecord, calculateVolume, checkFail, noFail, insertRecord,
      oneSetVolumeRecord, hreps, hmax, hany]
  · simp [completeWorkout, completeWorkoutTxn, findWorkout, oneSetStore, oneSetWorkout,
      processExercises, processExercise, processSets, processSet, isPersonalRecord,
      calculateVolume, checkFail, noFail, insertRecord, createProgress, toAppErr,
      hreps, hmax, hany, hce]

/-- Witness for C10 amended: a completed set with reps = 0 and weight 80,
no stored records — the staged volume Record has value 80·0 = 0, the set
is flagged, and the call nevertheless errors with the store unchanged. -/
theorem completeWorkout_absent_volume_baseline_witness :
    ((0 : Int) ≠ 1) ∧
    (∀ r ∈ ([] : List RecordRow), ¬(r.user = 1 ∧ r.exercise = 2 ∧ r.type = RecType.volume)) ∧
    (processSet noFail 1 2 1
        { st := { records := [], progress := [], opIdx := 0 },
          exerciseVolume := 0, exerciseReps := 0, personalRecords := 0 }
        { weight := 80, reps := 0, completed := true } =
      .ok ({ st := { records := [] ++ [oneSetVolumeRecord 80 0],
                     progress := [], opIdx := 1 },
             exerciseVolume := 80 * 0, exerciseReps := 0, personalRecords := 1 },
           { weight := 80, reps := 0, completed := true, isPersonalRecord := true }) ∧
     completeWorkout noFail (oneSetStore [] 80 0) 1 1 600000 =
       (.error .errorCompleting, oneSetStore [] 80 0)) :=
  ⟨by decide, by simp,
   completeWorkout_absent_volume_baseline 80 0 [] (by decide) (by simp)⟩
